import Mathlib

/-!
Verification of the request/retry/error-classification pipeline of the
tencent-cloud-sdk-python repository: the TC3-HMAC-SHA256 signer
(tencent/cloud/auth/credentials.py), the envelope classifier and the retry
loop (tencent/cloud/core/client.py), the error-handler chain
(tencent/cloud/core/errors.py), and the paginated lister
(tencent/cloud/serverless/functions/client.py).

Bytes are `List Nat` with every element below 256; 32-bit machine words are
`Nat` reduced modulo 2 ^ 32 wherever overflow matters.
-/

namespace TencentSDK

/-! ## SHA-256 over byte lists (FIPS 180-4), executable -/

/-- Addition of 32-bit words, wrapping modulo 2 ^ 32. -/
def add32 (x y : Nat) : Nat := (x + y) % 4294967296

/-- Bitwise complement of a 32-bit word. -/
def not32 (x : Nat) : Nat := 4294967295 - x

/-- Right rotation of a 32-bit word by `n` places (0 < n < 32). -/
def rotr32 (n x : Nat) : Nat := x / 2 ^ n + x % 2 ^ n * 2 ^ (32 - n)

/-- The choice function of the SHA-256 round. -/
def chFn (x y z : Nat) : Nat := (x &&& y) ^^^ (not32 x &&& z)

/-- The majority function of the SHA-256 round. -/
def majFn (x y z : Nat) : Nat := (x &&& y) ^^^ (x &&& z) ^^^ (y &&& z)

/-- Big sigma-0 of SHA-256. -/
def bsig0 (x : Nat) : Nat := rotr32 2 x ^^^ rotr32 13 x ^^^ rotr32 22 x

/-- Big sigma-1 of SHA-256. -/
def bsig1 (x : Nat) : Nat := rotr32 6 x ^^^ rotr32 11 x ^^^ rotr32 25 x

/-- Small sigma-0 of SHA-256. -/
def ssig0 (x : Nat) : Nat := rotr32 7 x ^^^ rotr32 18 x ^^^ x / 2 ^ 3

/-- Small sigma-1 of SHA-256. -/
def ssig1 (x : Nat) : Nat := rotr32 17 x ^^^ rotr32 19 x ^^^ x / 2 ^ 10

/-- The 64 SHA-256 round constants (FIPS 180-4, in decimal). -/
def kConsts : List Nat :=
  [1116352408, 1899447441, 3049323471, 3921009573,
   961987163, 1508970993, 2453635748, 2870763221,
   3624381080, 310598401, 607225278, 1426881987,
   1925078388, 2162078206, 2614888103, 3248222580,
   3835390401, 4022224774, 264347078, 604807628,
   770255983, 1249150122, 1555081692, 1996064986,
   2554220882, 2821834349, 2952996808, 3210313671,
   3336571891, 3584528711, 113926993, 338241895,
   666307205, 773529912, 1294757372, 1396182291,
   1695183700, 1986661051, 2177026350, 2456956037,
   2730485921, 2820302411, 3259730800, 3345764771,
   3516065817, 3600352804, 4094571909, 275423344,
   430227734, 506948616, 659060556, 883997877,
   958139571, 1322822218, 1537002063, 1747873779,
   1955562222, 2024104815, 2227730452, 2361852424,
   2428436474, 2756734187, 3204031479, 3329325298]

/-- The eight-word SHA-256 working state. -/
structure Hash8 where
  a : Nat
  b : Nat
  c : Nat
  d : Nat
  e : Nat
  f : Nat
  g : Nat
  h : Nat

/-- The SHA-256 initial hash value (FIPS 180-4, in decimal). -/
def initHash : Hash8 :=
  ⟨1779033703, 3144134277, 1013904242, 2773480762,
   1359893119, 2600822924, 528734635, 1541459225⟩

/-- Big-endian serialization of a 64-bit length field into eight bytes. -/
def u64be (n : Nat) : List Nat :=
  [n / 2 ^ 56 % 256, n / 2 ^ 48 % 256, n / 2 ^ 40 % 256, n / 2 ^ 32 % 256,
   n / 2 ^ 24 % 256, n / 2 ^ 16 % 256, n / 2 ^ 8 % 256, n % 256]

/-- SHA-256 message padding: a 0x80 byte, zeros up to 56 mod 64, then the
big-endian 64-bit bit length. -/
def sha256Pad (msg : List Nat) : List Nat :=
  msg ++ [128] ++ List.replicate ((120 - (msg.length + 1) % 64) % 64) 0
    ++ u64be (msg.length * 8)

/-- Assemble big-endian 32-bit words from groups of four bytes. -/
def beWords : List Nat → List Nat
  | a :: b :: c :: d :: rest => (((a * 256 + b) * 256 + c) * 256 + d) :: beWords rest
  | _ => []

/-- The 64-byte blocks of a padded message. -/
def blocksOf (padded : List Nat) : List (List Nat) :=
  (List.range (padded.length / 64)).map fun i => (padded.drop (64 * i)).take 64

/-- Append the next word of the SHA-256 message schedule. -/
def scheduleExtend (w : List Nat) : List Nat :=
  let t := w.length
  w ++ [(ssig1 (w.getD (t - 2) 0) + w.getD (t - 7) 0
        + ssig0 (w.getD (t - 15) 0) + w.getD (t - 16) 0) % 4294967296]

/-- Apply a function `n` times. -/
def iterApply (f : α → α) : Nat → α → α
  | 0, x => x
  | n + 1, x => iterApply f n (f x)

/-- The full 64-word message schedule of one block. -/
def messageSchedule (block : List Nat) : List Nat :=
  iterApply scheduleExtend 48 (beWords block)

/-- One SHA-256 round: fold the round constant and schedule word into the
working state. -/
def roundFn (st : Hash8) (kw : Nat × Nat) : Hash8 :=
  let t1 := (st.h + bsig1 st.e + chFn st.e st.f st.g + kw.1 + kw.2) % 4294967296
  let t2 := (bsig0 st.a + majFn st.a st.b st.c) % 4294967296
  ⟨(t1 + t2) % 4294967296, st.a, st.b, st.c,
   (st.d + t1) % 4294967296, st.e, st.f, st.g⟩

/-- Compress one 64-byte block into the running hash state. -/
def compressBlock (st : Hash8) (block : List Nat) : Hash8 :=
  let fin := (kConsts.zip (messageSchedule block)).foldl roundFn st
  ⟨add32 st.a fin.a, add32 st.b fin.b, add32 st.c fin.c, add32 st.d fin.d,
   add32 st.e fin.e, add32 st.f fin.f, add32 st.g fin.g, add32 st.h fin.h⟩

/-- Big-endian serialization of one 32-bit word into four bytes. -/
def wordBE4 (n : Nat) : List Nat :=
  [n / 2 ^ 24 % 256, n / 2 ^ 16 % 256, n / 2 ^ 8 % 256, n % 256]

/-- Serialize the final hash state into the 32 digest bytes. -/
def stateToBytes (st : Hash8) : List Nat :=
  wordBE4 st.a ++ wordBE4 st.b ++ wordBE4 st.c ++ wordBE4 st.d
    ++ wordBE4 st.e ++ wordBE4 st.f ++ wordBE4 st.g ++ wordBE4 st.h

/-- SHA-256 of a byte list: 32 digest bytes. -/
def sha256 (msg : List Nat) : List Nat :=
  stateToBytes ((blocksOf (sha256Pad msg)).foldl compressBlock initHash)

/-- HMAC-SHA256 (FIPS 198-1) of `msg` under `key`, as 32 digest bytes. -/
def hmacSha256 (key msg : List Nat) : List Nat :=
  let k0 := if 64 < key.length then sha256 key else key
  let kp := k0 ++ List.replicate (64 - k0.length) 0
  sha256 ((kp.map fun b => b ^^^ 92) ++ sha256 ((kp.map fun b => b ^^^ 54) ++ msg))

/-- Lowercase hexadecimal digit for a value below 16. -/
def hexDigitChar (n : Nat) : Char :=
  if n < 10 then Char.ofNat (48 + n) else Char.ofNat (87 + n)

/-- Two lowercase hexadecimal digits of one byte. -/
def byteHex (b : Nat) : String :=
  String.mk [hexDigitChar (b / 16), hexDigitChar (b % 16)]

/-- Lowercase hexadecimal rendering of a byte list, as Python hexdigest. -/
def hexOfBytes : List Nat → String
  | [] => ""
  | b :: rest => byteHex b ++ hexOfBytes rest

/-- The UTF-8 bytes of a string. -/
def strBytes (s : String) : List Nat := s.toUTF8.toList.map fun b => b.toNat

/-- Hex SHA-256 of the UTF-8 encoding of a string. -/
def sha256HexOfString (s : String) : String := hexOfBytes (sha256 (strBytes s))

/-! ## UTC calendar date from a Unix timestamp

Embeds the `datetime.datetime.utcfromtimestamp(ts).strftime(%Y-%m-%d)`
computation of `credentials.py` for non-negative timestamps, via the standard
civil-from-days conversion. -/

/-- Year, month and day of the civil date `z` days after 1970-01-01. -/
def civilFromDays (z : Nat) : Nat × Nat × Nat :=
  let zz := z + 719468
  let era := zz / 146097
  let doe := zz % 146097
  let yoe := (doe - doe / 1460 + doe / 36524 - doe / 146096) / 365
  let doy := doe - (365 * yoe + yoe / 4 - yoe / 100)
  let mp := (5 * doy + 2) / 153
  let dd := doy - (153 * mp + 2) / 5 + 1
  let mm := if mp < 10 then mp + 3 else mp - 9
  (yoe + era * 400 + (if mm ≤ 2 then 1 else 0), mm, dd)

/-- Zero-pad a number below 100 to two decimal digits. -/
def pad2 (n : Nat) : String := if n < 10 then "0" ++ toString n else toString n

/-- The UTC `YYYY-MM-DD` date string of a Unix timestamp, as
`utcfromtimestamp` followed by `strftime` renders it. -/
def dateFromTimestamp (ts : Nat) : String :=
  let ymd := civilFromDays (ts / 86400)
  toString ymd.1 ++ "-" ++ pad2 ymd.2.1 ++ "-" ++ pad2 ymd.2.2

/-! ## Request parameters, JSON serialization and the query string

Request parameter dictionaries are embedded as ordered association lists of
string keys and string values, the shape every signed request in the sources
sends. `json.dumps` with its default separators renders such a dictionary as
`\x7b"k": "v", ...\x7d` in insertion order. -/

/-- An ordered parameter dictionary with string values. -/
abbrev Params := List (String × String)

/-- JSON string escaping for the quote and backslash characters. -/
def jsonEscapeChar (c : Char) : List Char :=
  if c = '"' ∨ c = '\\' then ['\\', c] else [c]

/-- A JSON string literal, double-quoted. -/
def jsonStr (s : String) : String :=
  "\"" ++ String.mk (s.data.foldr (fun c acc => jsonEscapeChar c ++ acc) []) ++ "\""

/-- `json.dumps` of a parameter dictionary with the default separators. -/
def jsonDumps (ps : Params) : String :=
  "\x7b" ++ String.intercalate ", " (ps.map fun kv => jsonStr kv.1 ++ ": " ++ jsonStr kv.2) ++ "\x7d"

/-- Whether a byte is an unreserved URL character (alphanumeric or one of
`_ . - ~`), kept verbatim by percent-encoding. -/
def urlSafeByte (b : Nat) : Bool :=
  (48 ≤ b ∧ b ≤ 57) ∨ (65 ≤ b ∧ b ≤ 90) ∨ (97 ≤ b ∧ b ≤ 122)
    ∨ b = 95 ∨ b = 46 ∨ b = 45 ∨ b = 126

/-- Uppercase hexadecimal digit for a value below 16. -/
def hexDigitCharUpper (n : Nat) : Char :=
  if n < 10 then Char.ofNat (48 + n) else Char.ofNat (55 + n)

/-- Percent-encode one byte as `%XX` unless it is unreserved. -/
def percentEncodeByte (b : Nat) : String :=
  if urlSafeByte b then String.mk [Char.ofNat b]
  else String.mk ['%', hexDigitCharUpper (b / 16), hexDigitCharUpper (b % 16)]

/-- Percent-encode the UTF-8 bytes of a string. -/
def urlEncode (s : String) : String :=
  String.join ((strBytes s).map percentEncodeByte)

/-- Insert a pair into a key-sorted parameter list, keeping it sorted. -/
def insertByKey (p : String × String) : Params → Params
  | [] => [p]
  | q :: rest => if p.1 ≤ q.1 then p :: q :: rest else q :: insertByKey p rest

/-- Sort a parameter list by key. -/
def sortByKey (ps : Params) : Params := ps.foldr insertByKey []

/-- Modelled from the spec: `tencent.cloud.auth.helper.generate_url_query_string`
is imported by `credentials.py` but the `tencent/cloud/auth/helper.py` module is
not among the sources; per the spec the query string is the URL-encoded,
key-sorted rendering of the request parameters. -/
def generate_url_query_string (ps : Params) : String :=
  String.intercalate "&"
    ((sortByKey ps).map fun kv => urlEncode kv.1 ++ "=" ++ urlEncode kv.2)

/-! ## Credentials (tencent/cloud/auth/credentials.py)

Python exceptions are embedded as `Except String`; the validation branches
mirror the `if not x or not isinstance(...)` guards of the source, with the
`isinstance` half discharged by the Lean types. -/

/-- The access-credential record held by a `Credentials` instance: secret id,
secret key and optional session token. -/
structure Credentials where
  secret_id : String
  secret_key : String
  secret_token : Option String

/-- `Credentials.set_secret_info`: validate and replace all three fields.
An empty id or key is a ValueError. -/
def set_secret_info (secret_id secret_key : String) (secret_token : Option String) :
    Except String Credentials :=
  if secret_id = "" then .error "<secret_id> value invalid"
  else if secret_key = "" then .error "<secret_key> value invalid"
  else .ok ⟨secret_id, secret_key, secret_token⟩

/-- The canonical request string built by `generate_canonical_content`: the
query string is populated only for GET, and the hashed body is the JSON dump
of the parameters for non-GET methods and empty for GET. A falsy parameter
value is normalized to an empty dictionary in the source; the empty list
already plays that role here. -/
def canonicalString (request_hostname request_method : String)
    (request_parameters : Params) : String :=
  request_method ++ "\n/\n"
    ++ (if request_method = "GET" then generate_url_query_string request_parameters else "")
    ++ "\ncontent-type:application/json\nhost:" ++ request_hostname
    ++ "\n\ncontent-type;host\n"
    ++ sha256HexOfString
      (if request_method ≠ "GET" then jsonDumps request_parameters else "")

/-- `Credentials.generate_canonical_content` with its argument validation. -/
def generate_canonical_content (request_hostname request_method : String)
    (request_parameters : Params) : Except String String :=
  if request_hostname = "" then .error "<request_hostname> value invalid"
  else if request_method = "" then .error "<request_method> value invalid"
  else .ok (canonicalString request_hostname request_method request_parameters)

/-- The signature context string built by `generate_signature_content`. -/
def signatureString (signature_product_id : String) (signature_timestamp : Nat)
    (canonical_content : String) : String :=
  "TC3-HMAC-SHA256\n" ++ toString signature_timestamp ++ "\n"
    ++ dateFromTimestamp signature_timestamp ++ "/" ++ signature_product_id
    ++ "/tc3_request\n" ++ sha256HexOfString canonical_content

/-- `Credentials.generate_signature_content` with its argument validation; a
zero timestamp is falsy in Python and rejected. -/
def generate_signature_content (signature_product_id : String)
    (signature_timestamp : Nat) (canonical_content : String) : Except String String :=
  if signature_product_id = "" then .error "<signature_product_id> value invalid"
  else if signature_timestamp = 0 then .error "<signature_timestamp> value invalid"
  else if canonical_content = "" then .error "<canonical_content> value invalid"
  else .ok (signatureString signature_product_id signature_timestamp canonical_content)

/-- The digest computed by `Credentials.signature`: three chained HMAC key
derivations, then the hex HMAC of the signature content. -/
def signatureDigest (secret_key signature_product_id : String)
    (signature_timestamp : Nat) (signature_content : String) : String :=
  let signature_date := dateFromTimestamp signature_timestamp
  let secret_date_bytes := hmacSha256 (strBytes ("TC3" ++ secret_key)) (strBytes signature_date)
  let secret_service_bytes := hmacSha256 secret_date_bytes (strBytes signature_product_id)
  let secret_derived_bytes := hmacSha256 secret_service_bytes (strBytes "tc3_request")
  hexOfBytes (hmacSha256 secret_derived_bytes (strBytes signature_content))

/-- `Credentials.signature` with its argument validation. -/
def Credentials.signature (c : Credentials) (signature_product_id : String)
    (signature_timestamp : Nat) (signature_content : String) : Except String String :=
  if signature_product_id = "" then .error "<signature_product_id> value invalid"
  else if signature_timestamp = 0 then .error "<signature_timestamp> value invalid"
  else if signature_content = "" then .error "<signature_content> value invalid"
  else .ok (signatureDigest c.secret_key signature_product_id signature_timestamp
    signature_content)

/-- The authorization header string built by `generate_auth_content`. -/
def authString (secret_id signature_product_id : String) (signature_timestamp : Nat)
    (signature_result : String) : String :=
  "TC3-HMAC-SHA256 Credential=" ++ secret_id ++ "/"
    ++ dateFromTimestamp signature_timestamp ++ "/" ++ signature_product_id
    ++ "/tc3_request, SignedHeaders=content-type;host, Signature=" ++ signature_result

/-- `Credentials.generate_auth_content` with its argument validation. -/
def Credentials.generate_auth_content (c : Credentials) (signature_product_id : String)
    (signature_timestamp : Nat) (signature_result : String) : Except String String :=
  if signature_product_id = "" then .error "<signature_product_id> value invalid"
  else if signature_timestamp = 0 then .error "<signature_timestamp> value invalid"
  else if signature_result = "" then .error "<signature_result> value invalid"
  else .ok (authString c.secret_id signature_product_id signature_timestamp signature_result)

/-- `Credentials.generate_and_signature`: refresh (a no-op on the base class),
build the canonical content, the signature content, the digest, and the
authorization header, and return it with the session token. -/
def Credentials.generate_and_signature (c : Credentials)
    (request_hostname request_method : String) (request_parameters : Params)
    (signature_product_id : String) (signature_timestamp : Nat) :
    Except String (String × Option String) :=
  (generate_canonical_content request_hostname request_method request_parameters).bind
    fun canonical_content =>
  (generate_signature_content signature_product_id signature_timestamp
      canonical_content).bind fun signature_content =>
  (c.signature signature_product_id signature_timestamp signature_content).bind
    fun signature_result =>
  (c.generate_auth_content signature_product_id signature_timestamp
      signature_result).map fun auth_content =>
  (auth_content, c.secret_token)

/-! ### The claim-side signing formula (C1), spelled from the spec -/

/-- The canonical content of the claim: method, path `/`, GET-only
URL-encoded key-sorted query string, fixed headers, signed-header list, and
the hex SHA-256 of the body (empty for GET, the JSON-serialized parameters
otherwise). -/
def claimCanonicalContent (host method : String) (ps : Params) : String :=
  method ++ "\n/\n"
    ++ (if method = "GET" then generate_url_query_string ps else "")
    ++ "\ncontent-type:application/json\nhost:" ++ host
    ++ "\n\ncontent-type;host\n"
    ++ sha256HexOfString (if method ≠ "GET" then jsonDumps ps else "")

/-- The signature content of the claim:
`TC3-HMAC-SHA256 \ timestamp \ date/product_id/tc3_request \ SHA256_HEX(canonical)`
joined by newlines, with the date the UTC `YYYY-MM-DD` of the timestamp. -/
def claimSignatureContent (product_id : String) (ts : Nat) (canonical : String) : String :=
  "TC3-HMAC-SHA256\n" ++ toString ts ++ "\n"
    ++ dateFromTimestamp ts ++ "/" ++ product_id ++ "/tc3_request\n"
    ++ sha256HexOfString canonical

/-- The signing key of the claim: the three chained HMAC-SHA256 steps
`k1 = HMAC(TC3+secret_key, date)`, `k2 = HMAC(k1, product_id)`,
`k3 = HMAC(k2, tc3_request)`. -/
def claimSigningKey (secret_key product_id : String) (ts : Nat) : List Nat :=
  hmacSha256
    (hmacSha256
      (hmacSha256 (strBytes ("TC3" ++ secret_key)) (strBytes (dateFromTimestamp ts)))
      (strBytes product_id))
    (strBytes "tc3_request")

/-- The digest of the claim: hex HMAC-SHA256 of the signature content under
the derived key. -/
def claimDigest (secret_key host method : String) (ps : Params)
    (product_id : String) (ts : Nat) : String :=
  hexOfBytes (hmacSha256 (claimSigningKey secret_key product_id ts)
    (strBytes (claimSignatureContent product_id ts (claimCanonicalContent host method ps))))

/-- The authorization header of the claim:
`TC3-HMAC-SHA256 Credential=id/date/product_id/tc3_request,
SignedHeaders=content-type;host, Signature=digest`. -/
def claimAuthorizationHeader (secret_id secret_key host method : String)
    (ps : Params) (product_id : String) (ts : Nat) : String :=
  "TC3-HMAC-SHA256 Credential=" ++ secret_id ++ "/"
    ++ dateFromTimestamp ts ++ "/" ++ product_id
    ++ "/tc3_request, SignedHeaders=content-type;host, Signature="
    ++ claimDigest secret_key host method ps product_id ts

/-! ### Helper lemmas about nonempty strings and digests -/

theorem string_append_ne_empty_left (s t : String) (h : s ≠ "") : s ++ t ≠ "" := by
  cases s with
  | mk l =>
    cases t with
    | mk m =>
      intro he
      have hd : l ++ m = [] := congrArg String.data he
      rcases List.append_eq_nil.mp hd with ⟨h1, _⟩
      exact h (by rw [h1])

theorem byteHex_ne_empty (b : Nat) : byteHex b ≠ "" := by
  intro he
  have hd : ([hexDigitChar (b / 16), hexDigitChar (b % 16)] : List Char) = [] :=
    congrArg String.data he
  simp at hd

theorem hexOfBytes_ne_empty (l : List Nat) (h : l ≠ []) : hexOfBytes l ≠ "" := by
  cases l with
  | nil => exact absurd rfl h
  | cons b rest => exact string_append_ne_empty_left _ _ (byteHex_ne_empty b)

theorem sha256_ne_nil (msg : List Nat) : sha256 msg ≠ [] := by
  simp [sha256, stateToBytes, wordBE4]

theorem hmacSha256_ne_nil (key msg : List Nat) : hmacSha256 key msg ≠ [] := by
  unfold hmacSha256
  exact sha256_ne_nil _

theorem string_append_ne_empty_right (s t : String) (h : t ≠ "") : s ++ t ≠ "" := by
  cases s with
  | mk l =>
    cases t with
    | mk m =>
      intro he
      have hd : l ++ m = [] := congrArg String.data he
      rcases List.append_eq_nil.mp hd with ⟨_, h2⟩
      exact h (by rw [h2])

theorem canonicalString_ne_empty (host method : String) (ps : Params)
    (hm : method ≠ "") : canonicalString host method ps ≠ "" := by
  unfold canonicalString
  repeat apply string_append_ne_empty_left
  exact hm

theorem signatureString_ne_empty (pid : String) (ts : Nat) (canonical : String) :
    signatureString pid ts canonical ≠ "" := by
  unfold signatureString
  repeat apply string_append_ne_empty_left
  decide

theorem signatureDigest_ne_empty (key pid : String) (ts : Nat) (content : String) :
    signatureDigest key pid ts content ≠ "" := by
  unfold signatureDigest
  exact hexOfBytes_ne_empty _ (hmacSha256_ne_nil _ _)

theorem exbind_ok (x : α) (f : α → Except ε β) :
    (Except.ok x : Except ε α).bind f = f x := rfl

theorem exmap_ok (x : α) (f : α → β) :
    (Except.ok x : Except ε α).map f = Except.ok (f x) := rfl

theorem gcc_ok (host method : String) (ps : Params) (hhost : host ≠ "")
    (hmethod : method ≠ "") :
    generate_canonical_content host method ps
      = .ok (canonicalString host method ps) := by
  unfold generate_canonical_content
  simp only [if_neg hhost, if_neg hmethod]

theorem gsc_ok (pid : String) (ts : Nat) (cc : String) (hpid : pid ≠ "")
    (hts : ts ≠ 0) (hcc : cc ≠ "") :
    generate_signature_content pid ts cc = .ok (signatureString pid ts cc) := by
  unfold generate_signature_content
  simp only [if_neg hpid, if_neg hts, if_neg hcc]

theorem sig_ok (c : Credentials) (pid : String) (ts : Nat) (sc : String)
    (hpid : pid ≠ "") (hts : ts ≠ 0) (hsc : sc ≠ "") :
    c.signature pid ts sc = .ok (signatureDigest c.secret_key pid ts sc) := by
  unfold Credentials.signature
  simp only [if_neg hpid, if_neg hts, if_neg hsc]

theorem gac_ok (c : Credentials) (pid : String) (ts : Nat) (sr : String)
    (hpid : pid ≠ "") (hts : ts ≠ 0) (hsr : sr ≠ "") :
    c.generate_auth_content pid ts sr = .ok (authString c.secret_id pid ts sr) := by
  unfold Credentials.generate_auth_content
  simp only [if_neg hpid, if_neg hts, if_neg hsr]

theorem authString_eq_claim (secret_id secret_key host method : String)
    (ps : Params) (pid : String) (ts : Nat) :
    authString secret_id pid ts
        (signatureDigest secret_key pid ts
          (signatureString pid ts (canonicalString host method ps)))
      = claimAuthorizationHeader secret_id secret_key host method ps pid ts := rfl

/-- C1: for non-empty secret id, secret key, host, method and product id and a
positive timestamp, `generate_and_signature` returns the pair of the
TC3-HMAC-SHA256 authorization header described by the spec — credential
scope `id/date/product_id/tc3_request`, signed headers `content-type;host`,
and the digest computed from the canonical content, the signature content and
the three chained HMAC key-derivation steps — together with the session
token. -/
theorem generate_and_signature_matches_spec
    (c : Credentials) (host method : String) (ps : Params) (product_id : String)
    (ts : Nat) (_hid : c.secret_id ≠ "") (_hkey : c.secret_key ≠ "")
    (hhost : host ≠ "") (hmethod : method ≠ "") (hpid : product_id ≠ "")
    (hts : 0 < ts) :
    c.generate_and_signature host method ps product_id ts
      = .ok (claimAuthorizationHeader c.secret_id c.secret_key host method ps
          product_id ts, c.secret_token) := by
  have hts' : ts ≠ 0 := Nat.pos_iff_ne_zero.mp hts
  have hcanon := canonicalString_ne_empty host method ps hmethod
  have hsig := signatureString_ne_empty product_id ts (canonicalString host method ps)
  have hdig := signatureDigest_ne_empty c.secret_key product_id ts
    (signatureString product_id ts (canonicalString host method ps))
  unfold Credentials.generate_and_signature
  rw [gcc_ok host method ps hhost hmethod, exbind_ok]
  rw [gsc_ok product_id ts _ hpid hts' hcanon, exbind_ok]
  rw [sig_ok c product_id ts _ hpid hts' hsig, exbind_ok]
  rw [gac_ok c product_id ts _ hpid hts' hdig, exmap_ok]
  rw [authString_eq_claim]

/-- Closed witness for C1 at a concrete credential and request. -/
theorem generate_and_signature_matches_spec_witness :
    (Credentials.mk "AKIDEXAMPLE" "Gu5t9xGARNpq86cd98joQYCN3EXAMPLF" none).generate_and_signature
        "scf.tencentcloudapi.com" "POST" [("FunctionName", "hello")] "scf" 1609459200
      = .ok (claimAuthorizationHeader "AKIDEXAMPLE" "Gu5t9xGARNpq86cd98joQYCN3EXAMPLF"
          "scf.tencentcloudapi.com" "POST" [("FunctionName", "hello")] "scf" 1609459200,
          none) :=
  generate_and_signature_matches_spec _ _ _ _ _ _ (by decide) (by decide) (by decide)
    (by decide) (by decide) (by decide)

/-! ## Environment-sourced credentials (C10)

`EnvironmentalCredentials` overrides `refresh_secret_info` to re-read the
three environment variables; `generate_and_signature`, inherited from the
base class, calls `self.refresh_secret_info()` first, so by dynamic dispatch
the signing fields are replaced before any signing step. The process
environment is an explicit argument here. -/

/-- The process environment, an association list from variable names to
values. -/
abbrev Env := List (String × String)

/-- Look an environment variable up, as `os.environ.get(name, None)`. -/
def envGet (env : Env) (name : String) : Option String :=
  (env.find? fun kv => kv.1 == name).map fun kv => kv.2

/-- An environment-sourced credential: the three configured variable names,
and the secret info currently held (written at construction and by every
refresh). -/
structure EnvironmentalCredentials where
  variable_name_of_secret_id : String
  variable_name_of_secret_key : String
  variable_name_of_secret_token : String
  cred : Credentials

/-- `EnvironmentalCredentials.refresh_secret_info`: look the variables up
again in the current environment; a missing mandatory variable raises
KeyError, and the values pass through `set_secret_info` validation. -/
def EnvironmentalCredentials.refresh_secret_info (ec : EnvironmentalCredentials)
    (env : Env) : Except String EnvironmentalCredentials :=
  match envGet env ec.variable_name_of_secret_id with
  | none => .error "KeyError: secret id variable"
  | some idValue =>
    match envGet env ec.variable_name_of_secret_key with
    | none => .error "KeyError: secret key variable"
    | some keyValue =>
      (set_secret_info idValue keyValue
        (envGet env ec.variable_name_of_secret_token)).map
        fun c => { ec with cred := c }

/-- `EnvironmentalCredentials.__init__`: validate the variable names, require
the id and key variables to be present, and store the values read now. -/
def EnvironmentalCredentials.init (nid nkey ntok : String) (env : Env) :
    Except String EnvironmentalCredentials :=
  if nid = "" then .error "<variable_name_of_secret_id> value invalid"
  else if nkey = "" then .error "<variable_name_of_secret_key> value invalid"
  else if ntok = "" then .error "<variable_name_of_secret_token> value invalid"
  else match envGet env nid with
  | none => .error "EnvironmentError: missing secret id variable"
  | some idValue =>
    match envGet env nkey with
    | none => .error "EnvironmentError: missing secret key variable"
    | some keyValue =>
      (set_secret_info idValue keyValue (envGet env ntok)).map
        fun c => ⟨nid, nkey, ntok, c⟩

/-- `generate_and_signature` on an environment-sourced credential: the
inherited body runs after `refresh_secret_info` has replaced the secret
fields, so every later step reads the refreshed values. -/
def EnvironmentalCredentials.generate_and_signature (ec : EnvironmentalCredentials)
    (env : Env) (request_hostname request_method : String)
    (request_parameters : Params) (signature_product_id : String)
    (signature_timestamp : Nat) : Except String (String × Option String) :=
  (ec.refresh_secret_info env).bind fun refreshed =>
  (generate_canonical_content request_hostname request_method
      request_parameters).bind fun canonical_content =>
  (generate_signature_content signature_product_id signature_timestamp
      canonical_content).bind fun signature_content =>
  (refreshed.cred.signature signature_product_id signature_timestamp
      signature_content).bind fun signature_result =>
  (refreshed.cred.generate_auth_content signature_product_id signature_timestamp
      signature_result).map fun auth_content =>
  (auth_content, refreshed.cred.secret_token)

/-- C10: signing an environment-sourced credential uses the variable values
current at call time: whatever secret info the instance still holds from
construction, `generate_and_signature` equals `generate_and_signature` of a
credential built from the values the environment holds now. -/
theorem env_generate_and_signature_uses_current_env
    (ec : EnvironmentalCredentials) (env : Env) (idValue keyValue : String)
    (tokValue : Option String)
    (hid : envGet env ec.variable_name_of_secret_id = some idValue)
    (hkey : envGet env ec.variable_name_of_secret_key = some keyValue)
    (htok : envGet env ec.variable_name_of_secret_token = tokValue)
    (hidne : idValue ≠ "") (hkeyne : keyValue ≠ "")
    (host method : String) (ps : Params) (pid : String) (ts : Nat) :
    ec.generate_and_signature env host method ps pid ts
      = (Credentials.mk idValue keyValue tokValue).generate_and_signature
          host method ps pid ts := by
  unfold EnvironmentalCredentials.generate_and_signature
    EnvironmentalCredentials.refresh_secret_info Credentials.generate_and_signature
  rw [hid, hkey, htok]
  unfold set_secret_info
  simp only [if_neg hidne, if_neg hkeyne, exmap_ok, exbind_ok]

/-- Closed witness for C10: an instance holding stale secret info signs with
the values the environment holds now. -/
theorem env_generate_and_signature_uses_current_env_witness :
    (EnvironmentalCredentials.mk "TENCENTCLOUD_SECRETID" "TENCENTCLOUD_SECRETKEY"
        "TENCENTCLOUD_SESSIONTOKEN"
        (Credentials.mk "staleId" "staleKey" (some "staleToken"))).generate_and_signature
        [("TENCENTCLOUD_SECRETID", "freshId"), ("TENCENTCLOUD_SECRETKEY", "freshKey")]
        "scf.tencentcloudapi.com" "POST" [] "scf" 1609459200
      = (Credentials.mk "freshId" "freshKey" none).generate_and_signature
          "scf.tencentcloudapi.com" "POST" [] "scf" 1609459200 :=
  env_generate_and_signature_uses_current_env _ _ _ _ _ (by decide) (by decide)
    (by decide) (by decide) (by decide) _ _ _ _ _

/-! ## JSON values and client errors (tencent/cloud/core/errors.py)

Parsed response bodies are embedded as a small JSON value type. Python
raises are embedded as `Except`: `ClientErr` carries the four client
exception types with their constructor-stored fields, and `PyErr` adds the
ValueError raised by failed argument validation. -/

/-- A parsed JSON value. -/
inductive Json where
  | null
  | bool (b : Bool)
  | num (n : Int)
  | str (s : String)
  | arr (items : List Json)
  | obj (fields : List (String × Json))

/-- Key lookup in a JSON object field list. -/
def jsonLookup (fields : List (String × Json)) (key : String) : Option Json :=
  (fields.find? fun kv => kv.1 == key).map fun kv => kv.2

/-- Subscription `value[key]` on a JSON value; `none` is the KeyError case.
Subscripting a non-object (a TypeError in Python) is out of the scope of the
claims and also maps to `none` here. -/
def Json.get? : Json → String → Option Json
  | .obj fields, key => jsonLookup fields key
  | _, _ => none

/-- The membership test `key in value` on a JSON object. -/
def Json.hasKey (j : Json) (key : String) : Bool :=
  (j.get? key).isSome

/-- The client exception taxonomy: `RequestError`, `ResponseError` with its
status code and message, `ActionError` with its four stored fields, and
`ActionResultError`. -/
inductive ClientErr where
  | request (error_message : String)
  | response (status_code : Nat) (error_message : String)
  | action (action_id error_id error_message request_id : String)
  | actionResult (error_message : String)
  deriving DecidableEq

/-- A raised Python exception: a ValueError from argument validation, or one
of the client exception types. -/
inductive PyErr where
  | valueError (message : String)
  | client (e : ClientErr)
  deriving DecidableEq

/-- A truthy string field: the `ActionError` constructor accepts a value only
when it is a string and non-empty. -/
def validStrField : Json → Option String
  | .str s => if s = "" then none else some s
  | _ => none

/-- The `ActionError` constructor: validate the four fields in order and
raise the constructed error (or the ValueError of the first failing
validation). -/
def actionErrorRaise (action_id : String) (code msg rid : Json) :
    Except PyErr α :=
  if action_id = "" then .error (.valueError "<action_id> value invalid")
  else match validStrField code with
  | none => .error (.valueError "<error_id> value invalid")
  | some c =>
    match validStrField msg with
    | none => .error (.valueError "<error_message> value invalid")
    | some m =>
      match validStrField rid with
      | none => .error (.valueError "<request_id> value invalid")
      | some r => .error (.client (.action action_id c m r))

/-- The message of a KeyError caught while reading the envelope:
`str(KeyError(k))` renders as the quoted key. -/
def missingFieldMessage (key : String) : String :=
  "action response content missing field: " ++ "\x27" ++ key ++ "\x27"

/-! ## Envelope classification in `_try_request_action_async` (C2, C3) -/

/-- The HTTP exchange outcome observed by `_try_request_action_async`: either
the transport raised `aiohttp.ClientError` during the POST, or a response
arrived with a status code and a body. `json.loads` of the body is carried
as the `bodyJson` field, `none` when the body is unparsable. Modelled from
the spec: the `aiohttp` client session lives in the vendored
`tencent/cloud/common` package which is not among the sources; per the spec
a received response carries a status and a body text, and non-200 statuses
are classified by the status check of the source, so `raise_for_status` on a
received response is a no-op here. -/
inductive TransportOutcome where
  | failure (message : String)
  | response (status : Nat) (bodyText : String) (bodyJson : Option Json)

/-- The classification performed by `_try_request_action_async` after the
arguments are validated and the request is signed: transport failure to
`RequestError`; non-200 status to `ResponseError` with the body text;
unparsable body to `ResponseError`; an `Error` object in the envelope to
`ActionError` built from `Code`, `Message` and `RequestId`; a missing
envelope field to `ResponseError` with the KeyError message (the handler
reads the status attribute of the response; the source spells it
`status_code` there where every other read is `status`). On success the
value is the `Response` object paired with the `RequestId` stored as the
last-response metadata. -/
def try_request_action (outcome : TransportOutcome) (action_id : String) :
    Except PyErr (Json × Json) :=
  match outcome with
  | .failure message => .error (.client (.request message))
  | .response status bodyText bodyJson =>
    if status ≠ 200 then .error (.client (.response status bodyText))
    else
      match bodyJson with
      | none => .error (.client (.response status "action response content invalid"))
      | some parsed =>
        match parsed.get? "Response" with
        | none => .error (.client (.response status (missingFieldMessage "Response")))
        | some resp =>
          if resp.hasKey "Error" then
            match (resp.get? "Error").bind fun e => e.get? "Code" with
            | none => .error (.client (.response status (missingFieldMessage "Code")))
            | some code =>
              match (resp.get? "Error").bind fun e => e.get? "Message" with
              | none => .error (.client (.response status (missingFieldMessage "Message")))
              | some msg =>
                match resp.get? "RequestId" with
                | none => .error (.client (.response status (missingFieldMessage "RequestId")))
                | some rid => actionErrorRaise action_id code msg rid
          else
            match resp.get? "RequestId" with
            | none => .error (.client (.response status (missingFieldMessage "RequestId")))
            | some rid => .ok (resp, rid)

/-- Whether an outcome is a raised `ActionResultError`. -/
def isActionResultOutcome : Except PyErr (Json × Json) → Bool
  | .error (.client (.actionResult _)) => true
  | _ => false

/-- C2 (amended): an envelope whose `Response` object carries an `Error`
object raises `ActionError` populated from `Code`, `Message` and
`RequestId`; an envelope missing `RequestId` on a success response raises
`ResponseError` with the missing-field message — not `ActionResultError` as
the claim states. -/
theorem envelope_error_classification (action_id bodyText : String)
    (respFields : List (String × Json)) (errJson : Json) (code msg rid : String) :
    (action_id ≠ "" → code ≠ "" → msg ≠ "" → rid ≠ "" →
      jsonLookup respFields "Error" = some errJson →
      errJson.get? "Code" = some (.str code) →
      errJson.get? "Message" = some (.str msg) →
      jsonLookup respFields "RequestId" = some (.str rid) →
      try_request_action
          (.response 200 bodyText (some (.obj [("Response", .obj respFields)])))
          action_id
        = .error (.client (.action action_id code msg rid)))
    ∧ (jsonLookup respFields "Error" = none →
      jsonLookup respFields "RequestId" = none →
      try_request_action
          (.response 200 bodyText (some (.obj [("Response", .obj respFields)])))
          action_id
        = .error (.client (.response 200 (missingFieldMessage "RequestId")))) := by
  have hget_obj : ∀ (fs : List (String × Json)) (k : String),
      (Json.obj fs).get? k = jsonLookup fs k := fun _ _ => rfl
  have hrespL : jsonLookup [("Response", Json.obj respFields)] "Response"
      = some (Json.obj respFields) := rfl
  constructor
  · intro haid hc hm hr herr hcode hmsg hrid
    simp [try_request_action, Json.hasKey, hget_obj, hrespL, herr, hcode, hmsg,
      hrid, actionErrorRaise, validStrField, haid, hc, hm, hr]
  · intro herr hrid
    simp [try_request_action, Json.hasKey, hget_obj, hrespL, herr, hrid]

/-- Closed witness for C2 at two concrete envelopes. -/
theorem envelope_error_classification_witness :
    try_request_action
        (.response 200 "" (some (.obj [("Response", .obj
          [("Error", .obj [("Code", .str "InternalError"), ("Message", .str "boom")]),
           ("RequestId", .str "req-1")])])))
        "Invoke"
      = .error (.client (.action "Invoke" "InternalError" "boom" "req-1"))
    ∧ try_request_action
        (.response 200 "" (some (.obj [("Response", .obj [("Foo", .num 1)])])))
        "Invoke"
      = .error (.client (.response 200 (missingFieldMessage "RequestId"))) := by
  constructor
  · exact (envelope_error_classification "Invoke" ""
      [("Error", .obj [("Code", .str "InternalError"), ("Message", .str "boom")]),
       ("RequestId", .str "req-1")]
      (.obj [("Code", .str "InternalError"), ("Message", .str "boom")])
      "InternalError" "boom" "req-1").1
      (by decide) (by decide) (by decide) (by decide) (by simp [jsonLookup])
      (by simp [Json.get?, jsonLookup]) (by simp [Json.get?, jsonLookup])
      (by simp [jsonLookup])
  · exact (envelope_error_classification "Invoke" "" [("Foo", .num 1)]
      (.obj []) "x" "x" "x").2 (by simp [jsonLookup]) (by simp [jsonLookup])

/-- Counterexample for C2 as stated: on a success envelope missing
`RequestId` the code raises `ResponseError` via the KeyError handler, not
`ActionResultError`. -/
theorem envelope_missing_request_id_not_action_result :
    try_request_action
        (.response 200 "" (some (.obj [("Response", .obj [("Foo", .num 1)])])))
        "Invoke"
      = .error (.client (.response 200 (missingFieldMessage "RequestId")))
    ∧ isActionResultOutcome
        (try_request_action
          (.response 200 "" (some (.obj [("Response", .obj [("Foo", .num 1)])])))
          "Invoke") = false := ⟨rfl, rfl⟩

/-- C3: a response received with a non-200 status raises `ResponseError`
carrying that status and the body text; a transport failure raises
`RequestError`. -/
theorem status_and_transport_classification (action_id bodyText message : String)
    (status : Nat) (bodyJson : Option Json) :
    (status ≠ 200 →
      try_request_action (.response status bodyText bodyJson) action_id
        = .error (.client (.response status bodyText)))
    ∧ try_request_action (.failure message) action_id
        = .error (.client (.request message)) := by
  constructor
  · intro hs
    simp only [try_request_action]
    rw [if_pos hs]
  · rfl

/-- Closed witness for C3 at a concrete 404 response and a concrete
transport failure. -/
theorem status_and_transport_classification_witness :
    try_request_action (.response 404 "not found" none) "Invoke"
      = .error (.client (.response 404 "not found"))
    ∧ try_request_action (.failure "connection reset") "Invoke"
      = .error (.client (.request "connection reset")) :=
  ⟨(status_and_transport_classification "Invoke" "not found" "x" 404 none).1
      (by decide),
    (status_and_transport_classification "Invoke" "x" "connection reset" 200
      none).2⟩

/-! ## The error-handler chain (ErrorHandlerResult, ErrorManager) -/

namespace ErrorHandlerResult

/-- Defer to the next handler. -/
def Ignore : Nat := 0

/-- Surface the error to the caller now. -/
def Throw : Nat := 1

/-- Re-attempt immediately with no delay. -/
def Retry : Nat := 2

/-- Delay, then re-attempt. -/
def Backoff : Nat := 3

end ErrorHandlerResult

/-- An error-handler callback. The source passes the error manager and the
error source object as the first two arguments; no handler modelled here
reads either, so the embedded handler observes the error instance and the
retry count and returns its integer verdict. -/
abbrev ErrorHandler := ClientErr → Nat → Nat

/-- The error manager state: the registered handlers in registration order
and the three configuration fields. -/
structure ErrorManager where
  error_handlers : List ErrorHandler
  max_number_of_retries : Nat
  max_backoff_interval : Nat
  enabled : Bool

/-- `ErrorManager.__init__`: the given handlers in order, 10 retries, a
64-second backoff cap, enabled. -/
def ErrorManager.init (error_handlers : List ErrorHandler) : ErrorManager :=
  ⟨error_handlers, 10, 64, true⟩

/-- The handler loop of `ErrorManager.handler`: each handler runs in order
and the first result different from Ignore is returned; an exhausted list
falls through to Throw. -/
def chainLoop (error_instance : ClientErr) (error_retry_count : Nat) :
    List ErrorHandler → Nat
  | [] => ErrorHandlerResult.Throw
  | error_handler :: rest =>
    let handler_result := error_handler error_instance error_retry_count
    if handler_result ≠ ErrorHandlerResult.Ignore then handler_result
    else chainLoop error_instance error_retry_count rest

/-- `ErrorManager.handler`: Throw when disabled, otherwise the handler
loop. -/
def ErrorManager.handler (em : ErrorManager) (error_instance : ClientErr)
    (error_retry_count : Nat) : Nat :=
  if em.enabled = false then ErrorHandlerResult.Throw
  else chainLoop error_instance error_retry_count em.error_handlers

/-- The chain verdict of the claim: when enabled, the verdict of the first
handler in registration order not answering Ignore, and Throw when every
handler answers Ignore or none is registered; Throw when disabled. -/
def claimChainVerdict (em : ErrorManager) (e : ClientErr) (n : Nat) : Nat :=
  if em.enabled then
    match (em.error_handlers.map fun h => h e n).find?
        (fun r => r ≠ ErrorHandlerResult.Ignore) with
    | some r => r
    | none => ErrorHandlerResult.Throw
  else ErrorHandlerResult.Throw

/-- A handler that always defers. -/
def alwaysIgnoreHandler : ErrorHandler := fun _ _ => ErrorHandlerResult.Ignore

/-- A handler that always asks for backoff. -/
def alwaysBackoffHandler : ErrorHandler := fun _ _ => ErrorHandlerResult.Backoff

/-- A handler that always throws. -/
def alwaysThrowHandler : ErrorHandler := fun _ _ => ErrorHandlerResult.Throw

theorem chainLoop_eq_find (e : ClientErr) (n : Nat) (hs : List ErrorHandler) :
    chainLoop e n hs
      = match (hs.map fun h => h e n).find?
            (fun r => r ≠ ErrorHandlerResult.Ignore) with
        | some r => r
        | none => ErrorHandlerResult.Throw := by
  induction hs with
  | nil => rfl
  | cons h rest ih =>
    by_cases hr : h e n = ErrorHandlerResult.Ignore
    · simp only [chainLoop, List.map_cons, List.find?_cons, hr]
      simpa using ih
    · simp [chainLoop, List.find?_cons, hr]

/-- C5: `ErrorManager.handler` returns Throw when disabled and otherwise the
verdict of the first handler in registration order not answering Ignore,
defaulting to Throw; in particular the chain
[AlwaysIgnore, AlwaysBackoff, AlwaysThrow] yields Backoff. -/
theorem error_manager_handler_spec :
    (∀ (em : ErrorManager) (e : ClientErr) (n : Nat),
      em.handler e n = claimChainVerdict em e n)
    ∧ ∀ (e : ClientErr) (n : Nat),
      (ErrorManager.init
          [alwaysIgnoreHandler, alwaysBackoffHandler, alwaysThrowHandler]).handler e n
        = ErrorHandlerResult.Backoff := by
  constructor
  · intro em e n
    unfold ErrorManager.handler claimChainVerdict
    cases hen : em.enabled with
    | false => simp
    | true => simp [chainLoop_eq_find]
  · intro e n
    rfl

/-! ## The built-in default error handler (C6) -/

/-- `BaseClient.__action_retry_error_ids`: the provider error codes retried
by the built-in handler. -/
def action_retry_error_ids : List String :=
  ["AuthFailure.SignatureExpire", "InternalError", "LimitExceeded",
   "RequestLimitExceeded", "ResourceInsufficient"]

/-- `BaseClient._error_handler_callback`: Backoff for every RequestError,
Backoff for a ResponseError of status at least 500, Backoff for an
ActionError whose code is in the retry list, Ignore for everything else. -/
def error_handler_callback : ErrorHandler := fun error_instance _ =>
  match error_instance with
  | .request _ => ErrorHandlerResult.Backoff
  | .response status_code _ =>
    if status_code ≥ 500 then ErrorHandlerResult.Backoff
    else ErrorHandlerResult.Ignore
  | .action _ error_id _ _ =>
    if error_id ∈ action_retry_error_ids then ErrorHandlerResult.Backoff
    else ErrorHandlerResult.Ignore
  | .actionResult _ => ErrorHandlerResult.Ignore

/-- The default-handler policy of the claim: Backoff for transport failures,
for server statuses at least 500 and for the five named transient provider
codes; Ignore otherwise. -/
def claimDefaultVerdict : ClientErr → Nat
  | .request _ => ErrorHandlerResult.Backoff
  | .response status _ =>
    if 500 ≤ status then ErrorHandlerResult.Backoff else ErrorHandlerResult.Ignore
  | .action _ error_id _ _ =>
    if error_id = "AuthFailure.SignatureExpire" ∨ error_id = "InternalError"
        ∨ error_id = "LimitExceeded" ∨ error_id = "RequestLimitExceeded"
        ∨ error_id = "ResourceInsufficient"
      then ErrorHandlerResult.Backoff else ErrorHandlerResult.Ignore
  | .actionResult _ => ErrorHandlerResult.Ignore

/-- C6: the built-in handler callback implements exactly the claimed default
policy, for every error instance and retry count. -/
theorem error_handler_callback_spec (e : ClientErr) (n : Nat) :
    error_handler_callback e n = claimDefaultVerdict e := by
  cases e <;>
    simp [error_handler_callback, claimDefaultVerdict, action_retry_error_ids]

/-! ## The max_backoff_interval property (C9) -/

/-- The `max_backoff_interval` property setter: the source validates the
value (`if not value or not isinstance(value, int)`) and then returns — the
assignment of the validated value to the backing field is absent, so the
state is returned unchanged. Zero is falsy and rejected; a negative integer
is truthy and accepted. -/
def ErrorManager.set_max_backoff_interval (em : ErrorManager) (value : Int) :
    Except String ErrorManager :=
  if value = 0 then .error "<max_backoff_interval> value invalid"
  else .ok em

/-- C9 (code bug): `max_backoff_interval` defaults to 64, but assigning 5
leaves the readable value at 64 — the setter validates and never stores —
and assigning the non-positive -5 raises no error either. -/
theorem max_backoff_interval_setter_ineffective :
    (ErrorManager.init []).max_backoff_interval = 64
    ∧ ((ErrorManager.init []).set_max_backoff_interval 5).map
        (fun em => em.max_backoff_interval) = .ok 64
    ∧ ((ErrorManager.init []).set_max_backoff_interval 5).map
        (fun em => em.max_backoff_interval) ≠ .ok 5
    ∧ ((ErrorManager.init []).set_max_backoff_interval (-5)).map
        (fun em => em.max_backoff_interval) = .ok 64
    ∧ ((ErrorManager.init []).set_max_backoff_interval 0)
        = .error "<max_backoff_interval> value invalid" := by
  refine ⟨rfl, rfl, ?_, rfl, rfl⟩
  intro h
  have : (64 : Nat) = 5 := Except.ok.inj h
  simp at this

/-! ## The retry loop of `_request_action_async` (C4, C7)

One run of the `while True` loop. `attempt i` is the outcome of the i-th
call to `_try_request_action_async` — the loop variable `error_retry_count`
equals `i`, because the `finally` block increments it after every attempt.
`randDraw i` is the `random.randint(1, 1000)` draw of the iteration with
retry count `i`. Sleeps are recorded as exact rationals. The fuel argument
only bounds the recursion; with the fuel `request_action` passes it never
runs out, because the retry count grows by one each iteration and the loop
re-raises when it reaches the configured maximum. -/

/-- The observable trace of one `_request_action_async` run: the returned
value or re-raised error, the number of attempts made, the number of
handler-chain consultations, and the backoff sleeps performed in order. -/
structure LoopTrace where
  result : Except ClientErr Json
  attempts : Nat
  consults : Nat
  sleeps : List ℚ

/-- The body of the retry loop, from a given retry count. -/
def request_action_go (em : ErrorManager) (attempt : Nat → Except ClientErr Json)
    (randDraw : Nat → Nat) : Nat → Nat → LoopTrace
  | 0, _ => ⟨.error (.request "fuel exhausted"), 0, 0, []⟩
  | fuel + 1, error_retry_count =>
    match attempt error_retry_count with
    | .ok action_result => ⟨.ok action_result, 1, 0, []⟩
    | .error e =>
      if error_retry_count = em.max_number_of_retries then ⟨.error e, 1, 0, []⟩
      else
        let error_handler_result := em.handler e error_retry_count
        if error_handler_result = ErrorHandlerResult.Backoff then
          let backoff_interval : ℚ :=
            2 ^ error_retry_count + (randDraw error_retry_count : ℚ) / 1000
          let rest := request_action_go em attempt randDraw fuel (error_retry_count + 1)
          ⟨rest.result, rest.attempts + 1, rest.consults + 1,
            min backoff_interval (em.max_backoff_interval : ℚ) :: rest.sleeps⟩
        else if error_handler_result = ErrorHandlerResult.Retry then
          let rest := request_action_go em attempt randDraw fuel (error_retry_count + 1)
          ⟨rest.result, rest.attempts + 1, rest.consults + 1, rest.sleeps⟩
        else if error_handler_result = ErrorHandlerResult.Throw then
          ⟨.error e, 1, 1, []⟩
        else
          let rest := request_action_go em attempt randDraw fuel (error_retry_count + 1)
          ⟨rest.result, rest.attempts + 1, rest.consults + 1, rest.sleeps⟩

/-- `_request_action_async`: the loop with `error_retry_count` starting at
zero. -/
def request_action (em : ErrorManager) (attempt : Nat → Except ClientErr Json)
    (randDraw : Nat → Nat) : LoopTrace :=
  request_action_go em attempt randDraw (em.max_number_of_retries + 1) 0

theorem go_raise_at_max (em : ErrorManager) (attempt : Nat → Except ClientErr Json)
    (randDraw : Nat → Nat) (fuel : Nat) (e : ClientErr)
    (hatt : attempt em.max_number_of_retries = .error e) :
    request_action_go em attempt randDraw (fuel + 1) em.max_number_of_retries
      = ⟨.error e, 1, 0, []⟩ := by
  simp [request_action_go, hatt]

theorem go_backoff_step (em : ErrorManager) (attempt : Nat → Except ClientErr Json)
    (randDraw : Nat → Nat) (fuel count : Nat) (e : ClientErr)
    (hatt : attempt count = .error e) (hne : count ≠ em.max_number_of_retries)
    (hh : em.handler e count = ErrorHandlerResult.Backoff) :
    request_action_go em attempt randDraw (fuel + 1) count
      = ⟨(request_action_go em attempt randDraw fuel (count + 1)).result,
         (request_action_go em attempt randDraw fuel (count + 1)).attempts + 1,
         (request_action_go em attempt randDraw fuel (count + 1)).consults + 1,
         min ((2 : ℚ) ^ count + (randDraw count : ℚ) / 1000)
             (em.max_backoff_interval : ℚ)
           :: (request_action_go em attempt randDraw fuel (count + 1)).sleeps⟩ := by
  simp [request_action_go, hatt, hne, hh]

theorem go_retry_step (em : ErrorManager) (attempt : Nat → Except ClientErr Json)
    (randDraw : Nat → Nat) (fuel count : Nat) (e : ClientErr)
    (hatt : attempt count = .error e) (hne : count ≠ em.max_number_of_retries)
    (hh : em.handler e count = ErrorHandlerResult.Retry) :
    request_action_go em attempt randDraw (fuel + 1) count
      = ⟨(request_action_go em attempt randDraw fuel (count + 1)).result,
         (request_action_go em attempt randDraw fuel (count + 1)).attempts + 1,
         (request_action_go em attempt randDraw fuel (count + 1)).consults + 1,
         (request_action_go em attempt randDraw fuel (count + 1)).sleeps⟩ := by
  simp [request_action_go, hatt, hne, hh, ErrorHandlerResult.Retry,
    ErrorHandlerResult.Backoff]

theorem go_all_fail_all_backoff (em : ErrorManager)
    (attempt : Nat → Except ClientErr Json) (err : Nat → ClientErr)
    (randDraw : Nat → Nat)
    (hback : ∀ e n, em.handler e n = ErrorHandlerResult.Backoff)
    (hfail : ∀ i, attempt i = .error (err i)) :
    ∀ (k count : Nat), count + k = em.max_number_of_retries →
      (request_action_go em attempt randDraw (k + 1) count).result
          = .error (err (count + k))
        ∧ (request_action_go em attempt randDraw (k + 1) count).attempts = k + 1
        ∧ (request_action_go em attempt randDraw (k + 1) count).consults = k := by
  intro k
  induction k with
  | zero =>
    intro count hc
    simp only [Nat.add_zero] at hc ⊢
    rw [hc, go_raise_at_max em attempt randDraw 0 (err em.max_number_of_retries)
      (hfail _)]
    exact ⟨rfl, rfl, rfl⟩
  | succ k ih =>
    intro count hc
    have hne : count ≠ em.max_number_of_retries := by omega
    rw [go_backoff_step em attempt randDraw (k + 1) count (err count) (hfail count)
      hne (hback _ _)]
    have hc' : (count + 1) + k = em.max_number_of_retries := by omega
    obtain ⟨hr, ha, hco⟩ := ih (count + 1) hc'
    refine ⟨?_, ?_, ?_⟩
    · show (request_action_go em attempt randDraw (k + 1) (count + 1)).result = _
      rw [hr]
      have : count + 1 + k = count + (k + 1) := by omega
      rw [this]
    · show (request_action_go em attempt randDraw (k + 1) (count + 1)).attempts + 1 = _
      rw [ha]
    · show (request_action_go em attempt randDraw (k + 1) (count + 1)).consults + 1 = _
      rw [hco]

/-- C4: with `max_number_of_retries = 3`, every attempt failing and the
handler chain always answering Backoff, the run makes 4 attempts in total,
consults the chain 3 times, and re-raises the error of the last (fourth)
attempt; and in general an iteration whose retry count equals the configured
maximum re-raises the attempt error without consulting the chain. -/
theorem retry_bound (em : ErrorManager) (attempt : Nat → Except ClientErr Json)
    (err : Nat → ClientErr) (randDraw : Nat → Nat)
    (hmax : em.max_number_of_retries = 3)
    (hback : ∀ e n, em.handler e n = ErrorHandlerResult.Backoff)
    (hfail : ∀ i, attempt i = .error (err i)) :
    ((request_action em attempt randDraw).result = .error (err 3)
      ∧ (request_action em attempt randDraw).attempts = 4
      ∧ (request_action em attempt randDraw).consults = 3)
    ∧ ∀ (em2 : ErrorManager) (attempt2 : Nat → Except ClientErr Json)
        (randDraw2 : Nat → Nat) (fuel : Nat) (e2 : ClientErr),
        attempt2 em2.max_number_of_retries = .error e2 →
        request_action_go em2 attempt2 randDraw2 (fuel + 1)
            em2.max_number_of_retries
          = ⟨.error e2, 1, 0, []⟩ := by
  constructor
  · have h := go_all_fail_all_backoff em attempt err randDraw hback hfail 3 0
      (by omega)
    unfold request_action
    rw [hmax]
    obtain ⟨hr, ha, hc⟩ := h
    exact ⟨by rw [hr], by rw [ha], by rw [hc]⟩
  · intro em2 attempt2 randDraw2 fuel e2 hatt2
    exact go_raise_at_max em2 attempt2 randDraw2 fuel e2 hatt2

/-- A retry-configuration with three retries and an always-Backoff chain,
used by the retry-bound witness. -/
def retryThreeManager : ErrorManager := ⟨[alwaysBackoffHandler], 3, 64, true⟩

/-- Closed witness for C4 at a concrete manager and failing attempt
sequence. -/
theorem retry_bound_witness :
    ((request_action retryThreeManager (fun _ => .error (.request "down"))
          (fun _ => 1)).result = .error (.request "down")
      ∧ (request_action retryThreeManager (fun _ => .error (.request "down"))
          (fun _ => 1)).attempts = 4
      ∧ (request_action retryThreeManager (fun _ => .error (.request "down"))
          (fun _ => 1)).consults = 3)
    ∧ ∀ (em2 : ErrorManager) (attempt2 : Nat → Except ClientErr Json)
        (randDraw2 : Nat → Nat) (fuel : Nat) (e2 : ClientErr),
        attempt2 em2.max_number_of_retries = .error e2 →
        request_action_go em2 attempt2 randDraw2 (fuel + 1)
            em2.max_number_of_retries
          = ⟨.error e2, 1, 0, []⟩ :=
  retry_bound retryThreeManager (fun _ => .error (.request "down"))
    (fun _ => .request "down") (fun _ => 1) rfl (fun _ _ => rfl) (fun _ => rfl)

/-- C7 (amended): when the chain answers Backoff at retry count n, the loop
sleeps exactly `min(2 ^ n + randDraw n / 1000, max_backoff_interval)` before
the next iteration, and the jitter `randDraw n / 1000` lies in the closed
interval [0.001, 1.0]; a Retry verdict adds no sleep; and a freshly
constructed manager caps the backoff at 64 seconds. -/
theorem backoff_sleep_spec (em : ErrorManager)
    (attempt : Nat → Except ClientErr Json) (randDraw : Nat → Nat)
    (fuel count : Nat) (e : ClientErr)
    (hatt : attempt count = .error e) (hne : count ≠ em.max_number_of_retries)
    (hr1 : 1 ≤ randDraw count) (hr2 : randDraw count ≤ 1000) :
    (em.handler e count = ErrorHandlerResult.Backoff →
      (request_action_go em attempt randDraw (fuel + 1) count).sleeps
        = min ((2 : ℚ) ^ count + (randDraw count : ℚ) / 1000)
            (em.max_backoff_interval : ℚ)
          :: (request_action_go em attempt randDraw fuel (count + 1)).sleeps)
    ∧ (1 : ℚ) / 1000 ≤ (randDraw count : ℚ) / 1000
    ∧ (randDraw count : ℚ) / 1000 ≤ 1
    ∧ (em.handler e count = ErrorHandlerResult.Retry →
      (request_action_go em attempt randDraw (fuel + 1) count).sleeps
        = (request_action_go em attempt randDraw fuel (count + 1)).sleeps)
    ∧ (ErrorManager.init [error_handler_callback]).max_backoff_interval = 64 := by
  refine ⟨?_, ?_, ?_, ?_, rfl⟩
  · intro hh
    rw [go_backoff_step em attempt randDraw fuel count e hatt hne hh]
  · have h1 : (1 : ℚ) ≤ (randDraw count : ℚ) := by exact_mod_cast hr1
    have : (0 : ℚ) < 1000 := by norm_num
    exact (div_le_div_right this).mpr h1
  · have h2 : (randDraw count : ℚ) ≤ 1000 := by exact_mod_cast hr2
    have hle : (randDraw count : ℚ) / 1000 ≤ 1000 / 1000 :=
      (div_le_div_right (by norm_num)).mpr h2
    simpa using hle
  · intro hh
    rw [go_retry_step em attempt randDraw fuel count e hatt hne hh]

/-- Closed witness for C7 at a concrete failing attempt with a mid-range
random draw. -/
theorem backoff_sleep_spec_witness :
    ((ErrorManager.init [alwaysBackoffHandler]).handler (.request "down") 0
        = ErrorHandlerResult.Backoff →
      (request_action_go (ErrorManager.init [alwaysBackoffHandler])
          (fun _ => .error (.request "down")) (fun _ => 500) (0 + 1) 0).sleeps
        = min ((2 : ℚ) ^ (0 : Nat) + ((500 : Nat) : ℚ) / 1000)
            (((ErrorManager.init [alwaysBackoffHandler]).max_backoff_interval : Nat) : ℚ)
          :: (request_action_go (ErrorManager.init [alwaysBackoffHandler])
              (fun _ => .error (.request "down")) (fun _ => 500) 0 (0 + 1)).sleeps)
    ∧ (1 : ℚ) / 1000 ≤ (((500 : Nat) : ℚ)) / 1000
    ∧ (((500 : Nat) : ℚ)) / 1000 ≤ 1
    ∧ ((ErrorManager.init [alwaysBackoffHandler]).handler (.request "down") 0
        = ErrorHandlerResult.Retry →
      (request_action_go (ErrorManager.init [alwaysBackoffHandler])
          (fun _ => .error (.request "down")) (fun _ => 500) (0 + 1) 0).sleeps
        = (request_action_go (ErrorManager.init [alwaysBackoffHandler])
            (fun _ => .error (.request "down")) (fun _ => 500) 0 (0 + 1)).sleeps)
    ∧ (ErrorManager.init [error_handler_callback]).max_backoff_interval = 64 :=
  backoff_sleep_spec (ErrorManager.init [alwaysBackoffHandler])
    (fun _ => .error (.request "down")) (fun _ => 500) 0 0 (.request "down")
    rfl (by decide) (by decide) (by decide)

/-- An attempt sequence that always fails with a transport error. -/
def alwaysFailAttempt : Nat → Except ClientErr Json :=
  fun _ => .error (.request "connection lost")

/-- Counterexample for C7 as stated: with the draw `randint(1,1000) = 1` the
first backoff sleep is exactly `1 + 1/1000`, whose jitter is the left
endpoint 0.001 itself — no jitter in the open-below interval (0.001, 1.0]
produces that sleep. -/
theorem jitter_hits_lower_endpoint :
    (request_action (ErrorManager.init [alwaysBackoffHandler]) alwaysFailAttempt
        (fun _ => 1)).sleeps.head? = some ((1001 : ℚ) / 1000)
    ∧ ¬ ∃ j : ℚ, 1 / 1000 < j ∧ j ≤ 1
        ∧ (1001 : ℚ) / 1000
          = min ((2 : ℚ) ^ (0 : Nat) + j)
              ((ErrorManager.init [alwaysBackoffHandler]).max_backoff_interval : ℚ) := by
  constructor
  · have hstep := go_backoff_step (ErrorManager.init [alwaysBackoffHandler])
      alwaysFailAttempt (fun _ => 1) 10 0 (.request "connection lost") rfl
      (by decide) rfl
    show (request_action_go (ErrorManager.init [alwaysBackoffHandler])
        alwaysFailAttempt (fun _ => 1) (10 + 1) 0).sleeps.head?
      = some ((1001 : ℚ) / 1000)
    rw [hstep]
    show some (min ((2 : ℚ) ^ (0 : Nat) + ((1 : Nat) : ℚ) / 1000)
        ((ErrorManager.init [alwaysBackoffHandler]).max_backoff_interval : ℚ))
      = some ((1001 : ℚ) / 1000)
    have hcap : ((ErrorManager.init [alwaysBackoffHandler]).max_backoff_interval : ℚ)
        = 64 := by
      norm_num [ErrorManager.init]
    rw [hcap, min_eq_left (by norm_num)]
    norm_num
  · rintro ⟨j, hj1, hj2, hj3⟩
    have hcap : ((ErrorManager.init [alwaysBackoffHandler]).max_backoff_interval : ℚ)
        = 64 := by
      norm_num [ErrorManager.init]
    rw [hcap, pow_zero] at hj3
    rw [min_eq_left (by linarith)] at hj3
    have hj : j = 1 / 1000 := by linarith
    rw [hj] at hj1
    exact lt_irrefl _ hj1

/-! ## The paginated lister: list_functions_async (C8)

The generator repeatedly calls the ListFunctions action with the current
Offset and Limit, stops on an empty Functions array, yields one record per
element, stops after a page shorter than Limit, and otherwise advances the
offset by Limit. The action call itself is the retry pipeline above; here
`pages offset` stands for the Functions array the action returns at that
offset, and the loop result collects the yielded records together with the
number of action calls made. -/

/-- The dictionary yielded per listed function, field for field. -/
structure FunctionRecord where
  namespace_name : Json
  status : Json
  type : Json
  id : Json
  name : Json
  description : Json
  runtime : Json
  tags : List (String × Json)
  last_modified_time : Json
  create_time : Json

/-- The ActionResultError message for a field missing from one item. -/
def resultMissingFieldMessage (key : String) : String :=
  "action result content missing field: " ++ "\x27" ++ key ++ "\x27"

/-- Map one element of the Functions array to the yielded record, reading
the ten fields in the order of the source dictionary literal; a missing
field is a KeyError turned into `ActionResultError`. The Tags dictionary is
copied name by name; a Tags value that is not an object is folded into the
missing-field outcome (Python would iterate whatever value sits there, a
case outside the claims). -/
def mapFunctionInfo (function_info : Json) : Except ClientErr FunctionRecord :=
  match function_info.get? "Namespace" with
  | none => .error (.actionResult (resultMissingFieldMessage "Namespace"))
  | some nsv =>
  match function_info.get? "Status" with
  | none => .error (.actionResult (resultMissingFieldMessage "Status"))
  | some stv =>
  match function_info.get? "Type" with
  | none => .error (.actionResult (resultMissingFieldMessage "Type"))
  | some tyv =>
  match function_info.get? "FunctionId" with
  | none => .error (.actionResult (resultMissingFieldMessage "FunctionId"))
  | some fiv =>
  match function_info.get? "FunctionName" with
  | none => .error (.actionResult (resultMissingFieldMessage "FunctionName"))
  | some fnv =>
  match function_info.get? "Description" with
  | none => .error (.actionResult (resultMissingFieldMessage "Description"))
  | some dsv =>
  match function_info.get? "Runtime" with
  | none => .error (.actionResult (resultMissingFieldMessage "Runtime"))
  | some rtv =>
  match function_info.get? "Tags" with
  | some (.obj tagFields) =>
    (match function_info.get? "ModTime" with
    | none => .error (.actionResult (resultMissingFieldMessage "ModTime"))
    | some mtv =>
    match function_info.get? "AddTime" with
    | none => .error (.actionResult (resultMissingFieldMessage "AddTime"))
    | some atv =>
      .ok ⟨nsv, stv, tyv, fiv, fnv, dsv, rtv, tagFields, mtv, atv⟩)
  | _ => .error (.actionResult (resultMissingFieldMessage "Tags"))

/-- Map every element of one Functions array, stopping at the first failing
item. -/
def mapFunctionInfos : List Json → Except ClientErr (List FunctionRecord)
  | [] => .ok []
  | info :: rest =>
    (mapFunctionInfo info).bind fun record =>
    (mapFunctionInfos rest).map fun records => record :: records

/-- Whether every element of a Functions array maps to a record. -/
def mapsOk (infos : List Json) : Bool :=
  match mapFunctionInfos infos with
  | .ok _ => true
  | .error _ => false

/-- The pagination loop of `list_functions_async`: stop on an empty page,
yield the page records, stop after a short page, otherwise advance the
offset by the limit. The fuel argument makes the recursion structural; the
claims quantify over runs given enough fuel. -/
def list_functions_loop (pages : Nat → List Json) (limit : Nat) :
    Nat → Nat → Except ClientErr (List FunctionRecord × Nat)
  | 0, _ => .error (.request "fuel exhausted")
  | fuel + 1, offset =>
    let functions := pages offset
    if functions.isEmpty then .ok ([], 1)
    else
      match mapFunctionInfos functions with
      | .error e => .error e
      | .ok records =>
        if functions.length < limit then .ok (records, 1)
        else
          match list_functions_loop pages limit fuel (offset + limit) with
          | .error e => .error e
          | .ok (more, calls) => .ok (records ++ more, calls + 1)

/-- `list_functions_async`: the loop from offset 0 with the page size 20 the
source puts into `action_parameters`. -/
def list_functions (pages : Nat → List Json) (fuel : Nat) :
    Except ClientErr (List FunctionRecord × Nat) :=
  list_functions_loop pages 20 fuel 0

theorem mapsOk_ok (infos : List Json) (h : mapsOk infos = true) :
    ∃ records, mapFunctionInfos infos = .ok records := by
  unfold mapsOk at h
  cases hm : mapFunctionInfos infos with
  | ok r => exact ⟨r, rfl⟩
  | error e =>
    rw [hm] at h
    simp at h

theorem mapFunctionInfos_length (infos : List Json) (records : List FunctionRecord)
    (h : mapFunctionInfos infos = .ok records) : records.length = infos.length := by
  induction infos generalizing records with
  | nil =>
    rw [mapFunctionInfos] at h
    injection h with h'
    rw [← h']
    rfl
  | cons info rest ih =>
    rw [mapFunctionInfos] at h
    cases hm : mapFunctionInfo info with
    | error e =>
      rw [hm] at h
      exact absurd h (by simp [Except.bind])
    | ok r =>
      rw [hm, exbind_ok] at h
      cases hrest : mapFunctionInfos rest with
      | error e =>
        rw [hrest] at h
        exact absurd h (by simp [Except.map])
      | ok rs =>
        rw [hrest, exmap_ok] at h
        injection h with h'
        rw [← h']
        simp [ih rs hrest]

theorem loop_full_page (pages : Nat → List Json) (limit fuel offset : Nat)
    (p : List Json) (r : List FunctionRecord)
    (hp : pages offset = p) (hlen : p.length = limit) (hl : 1 ≤ limit)
    (hm : mapFunctionInfos p = .ok r) :
    list_functions_loop pages limit (fuel + 1) offset
      = match list_functions_loop pages limit fuel (offset + limit) with
        | .error e => .error e
        | .ok (more, calls) => .ok (r ++ more, calls + 1) := by
  have hne : p.isEmpty = false := by
    cases p with
    | nil => simp at hlen; omega
    | cons a rest => rfl
  simp only [list_functions_loop, hp, hne, Bool.false_eq_true, if_false, hm,
    hlen, lt_irrefl, if_neg (lt_irrefl limit)]

theorem loop_short_page (pages : Nat → List Json) (limit fuel offset : Nat)
    (p : List Json) (r : List FunctionRecord)
    (hp : pages offset = p) (hne : p.isEmpty = false) (hlen : p.length < limit)
    (hm : mapFunctionInfos p = .ok r) :
    list_functions_loop pages limit (fuel + 1) offset = .ok (r, 1) := by
  simp only [list_functions_loop, hp, hne, Bool.false_eq_true, if_false, hm,
    if_pos hlen]

theorem loop_empty_page (pages : Nat → List Json) (limit fuel offset : Nat)
    (hp : (pages offset).isEmpty = true) :
    list_functions_loop pages limit (fuel + 1) offset = .ok ([], 1) := by
  simp only [list_functions_loop, hp, if_true]

/-- C8: fed pages of sizes [limit, limit, limit - 1] from offsets 0, limit
and 2 * limit, the lister yields exactly 3 * limit - 1 records over exactly 3
action calls and terminates (for any additional fuel): the full pages
advance the offset by limit, and the short (or, when limit = 1, empty) third
page ends the iteration with no further call. -/
theorem pagination_three_pages (pages : Nat → List Json) (limit : Nat)
    (p1 p2 p3 : List Json) (fuel : Nat) (hl : 1 ≤ limit)
    (h1 : pages 0 = p1) (h2 : pages limit = p2) (h3 : pages (limit + limit) = p3)
    (l1 : p1.length = limit) (l2 : p2.length = limit) (l3 : p3.length = limit - 1)
    (m1 : mapsOk p1 = true) (m2 : mapsOk p2 = true) (m3 : mapsOk p3 = true) :
    ∃ records : List FunctionRecord,
      list_functions_loop pages limit (fuel + 3) 0 = .ok (records, 3)
        ∧ records.length = 3 * limit - 1 := by
  obtain ⟨r1, hm1⟩ := mapsOk_ok p1 m1
  obtain ⟨r2, hm2⟩ := mapsOk_ok p2 m2
  obtain ⟨r3, hm3⟩ := mapsOk_ok p3 m3
  have len1 := mapFunctionInfos_length p1 r1 hm1
  have len2 := mapFunctionInfos_length p2 r2 hm2
  have len3 := mapFunctionInfos_length p3 r3 hm3
  have e1 : fuel + 3 = (fuel + 2) + 1 := rfl
  have e2 : fuel + 2 = (fuel + 1) + 1 := rfl
  have hstep1 := loop_full_page pages limit (fuel + 2) 0 p1 r1 h1 l1 hl hm1
  have hstep2 := loop_full_page pages limit (fuel + 1) limit p2 r2 h2 l2 hl hm2
  rw [e1, hstep1, Nat.zero_add, e2, hstep2]
  cases hp3 : p3.isEmpty with
  | true =>
    have hp3' : (pages (limit + limit)).isEmpty = true := by rw [h3]; exact hp3
    rw [loop_empty_page pages limit fuel (limit + limit) hp3']
    refine ⟨r1 ++ (r2 ++ []), rfl, ?_⟩
    have hlim1 : limit = 1 := by
      cases p3 with
      | nil => simp at l3; omega
      | cons a rest => simp at hp3
    simp [len1, len2, l1, l2, hlim1]
  | false =>
    have hlt : p3.length < limit := by
      rw [l3]; omega
    rw [loop_short_page pages limit fuel (limit + limit) p3 r3 h3 hp3 hlt hm3]
    refine ⟨r1 ++ (r2 ++ r3), rfl, ?_⟩
    simp [len1, len2, len3, l1, l2, l3]
    omega

/-- A well-formed listed-function item used by the pagination witness. -/
def sampleFunctionInfo : Json :=
  .obj [("Namespace", .str "default"), ("Status", .str "Active"),
        ("Type", .str "Event"), ("FunctionId", .str "lam-1"),
        ("FunctionName", .str "hello"), ("Description", .str "demo"),
        ("Runtime", .str "Python3"), ("Tags", .obj []),
        ("ModTime", .str "2021-01-01 00:00:00"),
        ("AddTime", .str "2021-01-01 00:00:00")]

/-- The three-page feed of the pagination witness, with limit 1: pages of
sizes [1, 1, 0] at offsets 0, 1 and 2. -/
def samplePages : Nat → List Json :=
  fun offset => if offset = 0 ∨ offset = 1 then [sampleFunctionInfo] else []

/-- Closed witness for C8: with limit 1 and pages of sizes [1, 1, 0], the
lister returns 2 = 3 * 1 - 1 records over 3 calls. -/
theorem pagination_three_pages_witness :
    ∃ records : List FunctionRecord,
      list_functions_loop samplePages 1 (0 + 3) 0 = .ok (records, 3)
        ∧ records.length = 3 * 1 - 1 :=
  pagination_three_pages samplePages 1 [sampleFunctionInfo] [sampleFunctionInfo]
    [] 0 (by decide) rfl rfl rfl rfl rfl rfl rfl rfl rfl

end TencentSDK
